import Mathlib

/-!
Verification development for the ff2 repository.

The repository has two independent components:

* an authentication guard (`src/client/src/lib/puter-auth.ts`, exported
  function `ensurePuterAuth`, helper `authenticateWithPopup`), plus a
  simpler guard variant (`src/unnamed/part_000`, also exported as
  `ensurePuterAuth`);
* a chat-message formatter (`src/unnamed/part_001`, function
  `formatMessageContent`).

Both are embedded shallowly below.  Strings are modelled as `List Char`
(the formatter) or `String` (error messages).  JavaScript `\s` is modelled
by its ASCII members, which covers every character occurring in the
repository and in the claims.  All definitions are executable.
-/

/-! ## Character and string primitives used by the formatter -/

/-- The ASCII part of the JavaScript whitespace class `\s` (space, tab,
newline, carriage return, vertical tab, form feed).  `String.prototype.trim`
and the regex class `\s` both use this class. -/
def isWS (c : Char) : Bool :=
  c == ' ' || c == '\t' || c == '\n' || c == '\r' ||
  c == Char.ofNat 11 || c == Char.ofNat 12

/-- JavaScript `String.prototype.trim`: drop whitespace from both ends. -/
def trimL (l : List Char) : List Char :=
  ((l.dropWhile isWS).reverse.dropWhile isWS).reverse

/-- JavaScript `s.split('\n')`: the list of lines of `l`, separators
removed.  Always non-empty; `linesOf [] = [[]]` just as `"".split('\n')`
is `[""]`. -/
def linesOf : List Char → List (List Char)
  | [] => [[]]
  | c :: cs =>
    let r := linesOf cs
    if c = '\n' then [] :: r else (c :: r.headI) :: r.tail

/-- `join(sep)` on a list of strings: interleave a single separator
character between the pieces. -/
def joinSep (sep : Char) : List (List Char) → List Char
  | [] => []
  | [l] => l
  | l :: ls => l ++ sep :: joinSep sep ls

/-- The portion of `l` before its first newline
(`l.takeWhile (· != '\n')`); this is `(linesOf l).headI`. -/
def firstLine (l : List Char) : List Char :=
  l.takeWhile (fun c => c != '\n')

/-- JavaScript `String.prototype.includes(sub)`: does `sub` occur as a
contiguous substring?  Standard scan over all suffixes. -/
def containsSub (sub : List Char) : List Char → Bool
  | [] => sub.isEmpty
  | c :: cs => sub.isPrefixOf (c :: cs) || containsSub sub cs

/-! ## The formatter (`formatMessageContent` in `src/unnamed/part_001`) -/

/-- Result of matching the regex `\d+\.` after its leading digit: consume
digits, then require a literal dot.  (`\d+` cannot backtrack usefully here
because a digit is never a dot.) -/
def numRest : List Char → Bool
  | [] => false
  | c :: cs => if c == '.' then true else if c.isDigit then numRest cs else false

/-- Matching the regex `\d+\.` at the start of `l`: at least one digit,
then a dot. -/
def numPrefix : List Char → Bool
  | [] => false
  | c :: cs => c.isDigit && numRest cs

/-- The search `paragraph.match(/\n\d+\./)` of the source: is there a
newline directly followed by digits and a dot? -/
def hasNlNum : List Char → Bool
  | [] => false
  | c :: cs => (c == '\n' && numPrefix cs) || hasNlNum cs

/-- The bulleted-list detection of the source:
`paragraph.includes('\n- ') || paragraph.includes('\n* ') ||
paragraph.includes('\n• ')`. -/
def bulletDetect (p : List Char) : Bool :=
  containsSub ['\n', '-', ' '] p ||
  containsSub ['\n', '*', ' '] p ||
  containsSub ['\n', '•', ' '] p

/-- A (raw, untrimmed) line that starts with a bullet marker followed by
a space: exactly the shape a non-first line must have for one of the
`includes('\n- ')` / `includes('\n* ')` / `includes('\n• ')` tests of the
source to fire. -/
def isBulletStart (ln : List Char) : Bool :=
  ['-', ' '].isPrefixOf ln || ['*', ' '].isPrefixOf ln ||
  ['•', ' '].isPrefixOf ln

/-- One line of a bulleted-list chunk: the source tests
`line.trim().match(/^[-*•]\s/)` and on success pushes
`line.trim().replace(/^[-*•]\s/, '')` (the trimmed line with the marker
and one following whitespace character removed). -/
def bulletItem? (line : List Char) : Option (List Char) :=
  match trimL line with
  | c :: d :: rest =>
    if (c == '-' || c == '*' || c == '•') && isWS d then some rest else none
  | _ => none

/-- After the leading digit of `/^\d+\.\s/`: consume digits, a dot, and
one whitespace character; return the remainder (the replacement result). -/
def stripNumRest : List Char → Option (List Char)
  | [] => none
  | c :: cs =>
    if c.isDigit then stripNumRest cs
    else if c == '.' then
      match cs with
      | d :: ds => if isWS d then some ds else none
      | [] => none
    else none

/-- One line of a numbered-list chunk: the source tests
`line.trim().match(/^\d+\.\s/)` and pushes
`line.trim().replace(/^\d+\.\s/, '')`. -/
def numItem? (line : List Char) : Option (List Char) :=
  match trimL line with
  | [] => none
  | c :: cs => if c.isDigit then stripNumRest cs else none

/-- A line that is not a list item but is non-blank after trimming: the
source collects these (trimmed) into `nonListLines`. -/
def nonItemLine? (item? : List Char → Option (List Char)) (line : List Char) :
    Option (List Char) :=
  match item? line with
  | some _ => none
  | none => let t := trimL line; if t = [] then none else some t

/-- A block of the rendered output tree: a paragraph, a bulleted list, a
numbered list (each item paired with its rendered label `itemIndex + 1`),
or a code block (language tag, possibly empty, and verbatim body). -/
inductive Rendered
  | paragraph (text : List Char)
  | bullets (items : List (List Char))
  | numbered (items : List (Nat × List Char))
  | code (language : List Char) (body : List Char)
deriving DecidableEq

/-- The bulleted-list branch of `formatMessageContent`: an optional
leading paragraph (non-matching non-blank lines, trimmed, joined with
spaces), then the list if any item matched. -/
def bulletRender (p : List Char) : List Rendered :=
  let ls := linesOf p
  let listItems := ls.filterMap bulletItem?
  let nonListLines := ls.filterMap (nonItemLine? bulletItem?)
  (if nonListLines = [] then [] else
    [Rendered.paragraph (joinSep ' ' nonListLines)]) ++
  (if listItems = [] then [] else [Rendered.bullets listItems])

/-- The numbered-list branch of `formatMessageContent`: same shape as the
bulleted branch; rendered labels are `itemIndex + 1`, ignoring the digits
in the source lines. -/
def numberRender (p : List Char) : List Rendered :=
  let ls := linesOf p
  let listItems := ls.filterMap numItem?
  let nonListLines := ls.filterMap (nonItemLine? numItem?)
  (if nonListLines = [] then [] else
    [Rendered.paragraph (joinSep ' ' nonListLines)]) ++
  (if listItems = [] then [] else
    [Rendered.numbered (listItems.enum.map (fun q => (q.1 + 1, q.2)))])

/-- The backtick character (code point 96). -/
def tick : Char := Char.ofNat 96

/-- The triple-backtick code-fence delimiter. -/
def tickSep : List Char := [tick, tick, tick]

/-- JavaScript `paragraph.split('```')`. -/
def splitTicks : List Char → List (List Char)
  | a :: b :: c :: cs =>
    if a = tick ∧ b = tick ∧ c = tick then [] :: splitTicks cs
    else
      let r := splitTicks (b :: c :: cs)
      (a :: r.headI) :: r.tail
  | l => [l]

/-- Language tag of a code segment: `lines[0]?.trim() || ''` in the
source (the split of a segment into lines is never empty, so this is the
trimmed first line). -/
def codeLang (part : List Char) : List Char :=
  trimL (linesOf part).headI

/-- Body of a code segment: `lines.slice(language ? 1 : 0).join('\n')` in
the source — drop the tag line when the tag is non-empty, keep everything
otherwise, and rejoin with newlines (no trimming). -/
def codeBody (part : List Char) : List Char :=
  let ls := linesOf part
  if codeLang part = [] then joinSep '\n' ls else joinSep '\n' ls.tail

/-- The code-block branch of `formatMessageContent`: split on triple
backticks; odd-indexed segments become code blocks, even-indexed segments
become paragraphs when non-blank after trimming and are dropped
otherwise. -/
def codeRender (p : List Char) : List Rendered :=
  (splitTicks p).enum.filterMap (fun q =>
    if q.1 % 2 = 1 then some (Rendered.code (codeLang q.2) (codeBody q.2))
    else
      let t := trimL q.2
      if t = [] then none else some (Rendered.paragraph t))

/-- Classification of one paragraph chunk, in the source's priority
order: bulleted list, numbered list, code block, plain paragraph, nothing
for a blank chunk. -/
def renderChunk (p : List Char) : List Rendered :=
  if bulletDetect p then bulletRender p
  else if hasNlNum p then numberRender p
  else if containsSub tickSep p then codeRender p
  else if trimL p = [] then [] else [Rendered.paragraph (trimL p)]

/-- Inside the maximal whitespace run starting at the head of `l`, find
the last newline and return the suffix strictly after it.  This is the
backtracking behaviour of `\s*\n` after an initial newline: the greedy
`\s*` backs off until the final `\n` of the pattern can match, so the
match ends at the last newline of the run. -/
def wsPrefixLastNl : List Char → Option (List Char)
  | [] => none
  | c :: cs =>
    if isWS c then
      match wsPrefixLastNl cs with
      | some r => some r
      | none => if c = '\n' then some cs else none
    else none

/-- Fuelled worker for `content.split(/\n\s*\n/)`: scan left to right; at
each newline, try to complete a separator match with `wsPrefixLastNl`; on
success cut the chunk and continue after the match.  Each step consumes at
least one character, so fuel equal to the input length is sufficient. -/
def splitParasGo : Nat → List Char → List Char → List (List Char)
  | _, acc, [] => [acc.reverse]
  | 0, acc, rest => [acc.reverse ++ rest]
  | fuel + 1, acc, c :: cs =>
    if c = '\n' then
      match wsPrefixLastNl cs with
      | some r => acc.reverse :: splitParasGo fuel [] r
      | none => splitParasGo fuel (c :: acc) cs
    else splitParasGo fuel (c :: acc) cs

/-- `content.split(/\n\s*\n/)`: split into paragraph chunks on
blank-line separators. -/
def splitParas (l : List Char) : List (List Char) :=
  splitParasGo l.length [] l

/-- The formatter `formatMessageContent` of `src/unnamed/part_001`:
split into paragraph chunks, classify and render each, concatenate the
rendered blocks in order.  (Inline emphasis/code/link substitution is
applied pointwise to the stored paragraph and item texts by
`formatInlineText` at render time and does not change the block
structure, which is what the claims are about.) -/
def formatMessageContent (s : String) : List Rendered :=
  ((splitParas s.toList).map renderChunk).flatten

/-! ## The authentication guard (`src/client/src/lib/puter-auth.ts`) -/

/-- The error kinds of `PuterAuthError` (the `code` union type of the
source). -/
inductive PuterAuthCode
  | NOT_AVAILABLE
  | AUTH_FAILED
  | POPUP_BLOCKED
  | TIMEOUT
  | USER_CANCELLED
deriving DecidableEq

/-- `PuterAuthError`: a message plus a stable kind. -/
structure PuterAuthError where
  message : String
  code : PuterAuthCode
deriving DecidableEq

/-- The object `window.puter.getUser()` may resolve with: in the source
the guard tests `user && user.username`, so we model the resolved value as
an optional object with an optional `username` field. -/
structure UserObj where
  username : Option String
deriving DecidableEq

/-- `user && user.username` with a non-empty string: the truthiness test
the source applies to a resolved `getUser` value. -/
def truthyUsername : Option UserObj → Bool
  | none => false
  | some u =>
    match u.username with
    | none => false
    | some s => s != ""

/-- Outcome of one call to the SDK's session-confirmation method
`getUser`: the promise either rejects (`throwErr`) or resolves with a
possibly-null user object. -/
inductive ProbeOutcome
  | throwErr
  | ok (user : Option UserObj)
deriving DecidableEq

/-- "Valid identity": the confirmation call resolved and
`user && user.username` is truthy. -/
def validIdentity : ProbeOutcome → Bool
  | ProbeOutcome.throwErr => false
  | ProbeOutcome.ok u => truthyUsername u

/-- The ambient SDK surface `ensurePuterAuth` interacts with:
whether `window.puter` exists, whether `window.puter.getUser` exists (and
the outcome it would produce when called during the initial check), and
whether `window.puter.resetAuthToken` exists (and whether calling it
throws, with the message of the thrown error). -/
structure SDKEnv where
  puterPresent : Bool
  getUserMethod : Option ProbeOutcome
  resetPresent : Bool
  resetThrows : Bool
  resetErrMsg : String
deriving DecidableEq

/-- The options record of `ensurePuterAuth` (the `loginUrl` option only
feeds the popup URL and is not needed by any claim). -/
structure EnsurePuterAuthOptions where
  popup : Bool
  timeoutMs : Nat
deriving DecidableEq

/-- The defaults `popup = true`, `timeoutMs = 60000` of the source. -/
def defaultOptions : EnsurePuterAuthOptions := ⟨true, 60000⟩

/-- How a run of `ensurePuterAuth` ends: the promise resolves, rejects
with a `PuterAuthError`, or rejects with a raw (kind-less) error. -/
inductive EnsureResult
  | resolved
  | rejectedAuth (e : PuterAuthError)
  | rejectedRaw (message : String)
deriving DecidableEq

/-- Result of an `ensurePuterAuth` run together with its observable
side effects: how many times the initial session probe called `getUser`,
whether `resetAuthToken` was invoked, and whether the popup sub-flow was
entered. -/
structure EnsureTrace where
  result : EnsureResult
  outerProbes : Nat
  resetInvoked : Bool
  popupEntered : Bool
deriving DecidableEq

/-- Abstract outcome of `authenticateWithPopup` as seen by its caller
`ensurePuterAuth`: success, rejection with a `PuterAuthError`, or
rejection with some other error (carrying its message). -/
inductive PopupOutcome
  | success
  | authError (e : PuterAuthError)
  | otherError (msg : String)
deriving DecidableEq

/-- `'Puter SDK is not available. Make sure the Puter script is loaded.'`
with kind `NOT_AVAILABLE`. -/
def notAvailableErr : PuterAuthError :=
  ⟨"Puter SDK is not available. Make sure the Puter script is loaded.",
   PuterAuthCode.NOT_AVAILABLE⟩

/-- `'User is not authenticated and popup authentication is disabled'`
with kind `AUTH_FAILED`. -/
def popupDisabledErr : PuterAuthError :=
  ⟨"User is not authenticated and popup authentication is disabled",
   PuterAuthCode.AUTH_FAILED⟩

/-- `'Failed to open login popup. Please allow popups for this site.'`
with kind `POPUP_BLOCKED`. -/
def popupBlockedErr : PuterAuthError :=
  ⟨"Failed to open login popup. Please allow popups for this site.",
   PuterAuthCode.POPUP_BLOCKED⟩

/-- The timeout rejection of the polling loop, with kind `TIMEOUT`. -/
def timeoutErr (timeoutMs : Nat) : PuterAuthError :=
  ⟨"Authentication timeout after " ++ toString timeoutMs ++ "ms",
   PuterAuthCode.TIMEOUT⟩

/-- `'Login popup was closed before authentication completed'` with kind
`USER_CANCELLED`. -/
def userCancelledErr : PuterAuthError :=
  ⟨"Login popup was closed before authentication completed",
   PuterAuthCode.USER_CANCELLED⟩

/-- The tail of `ensurePuterAuth` after the session was found invalid:
run the popup flow when `popup` is enabled (re-throwing `PuterAuthError`s
unchanged and wrapping any other error as `AUTH_FAILED`), otherwise
reject with `AUTH_FAILED`.  `probes` and `reset` carry the side effects
already performed by the initial check. -/
def proceedToPopup (opts : EnsurePuterAuthOptions) (popupRes : PopupOutcome)
    (probes : Nat) (reset : Bool) : EnsureTrace :=
  if opts.popup then
    match popupRes with
    | PopupOutcome.success => ⟨EnsureResult.resolved, probes, reset, true⟩
    | PopupOutcome.authError e =>
      ⟨EnsureResult.rejectedAuth e, probes, reset, true⟩
    | PopupOutcome.otherError msg =>
      ⟨EnsureResult.rejectedAuth ⟨msg, PuterAuthCode.AUTH_FAILED⟩, probes, reset, true⟩
  else ⟨EnsureResult.rejectedAuth popupDisabledErr, probes, reset, false⟩

/-- `ensurePuterAuth` of `src/client/src/lib/puter-auth.ts`.  The checks
mirror the source in order: missing SDK rejects with `NOT_AVAILABLE`; if
`getUser` exists it is awaited once — a valid identity resolves
immediately; a resolved-but-invalid identity falls through the `try`
block with no further action; a rejected call lands in the `catch` block,
which invokes `resetAuthToken` when it exists (a throw from that hook
propagates out of the async function as a raw rejection); afterwards the
popup flow is entered or the run rejects with `AUTH_FAILED` when popups
are disabled. -/
def ensurePuterAuth (env : SDKEnv) (opts : EnsurePuterAuthOptions)
    (popupRes : PopupOutcome) : EnsureTrace :=
  if env.puterPresent then
    match env.getUserMethod with
    | some (ProbeOutcome.ok u) =>
      if truthyUsername u then ⟨EnsureResult.resolved, 1, false, false⟩
      else proceedToPopup opts popupRes 1 false
    | some ProbeOutcome.throwErr =>
      if env.resetPresent then
        if env.resetThrows then
          ⟨EnsureResult.rejectedRaw env.resetErrMsg, 1, true, false⟩
        else proceedToPopup opts popupRes 1 true
      else proceedToPopup opts popupRes 1 false
    | none => proceedToPopup opts popupRes 0 false
  else ⟨EnsureResult.rejectedAuth notAvailableErr, 0, false, false⟩

/-! ## The popup sub-flow (`authenticateWithPopup`) -/

/-- The handle returned by `window.open`: `opened = false` models a null
handle, `closedImmediately` models `popup.closed` being true right after
opening. -/
structure PopupHandle where
  opened : Bool
  closedImmediately : Bool
deriving DecidableEq

/-- How the promise of the popup flow settles: `resolve()` or
`reject(e)`. -/
inductive PollSettle
  | resolve
  | reject (e : PuterAuthError)
deriving DecidableEq

/-- Environment observed by one polling tick: the elapsed time
`Date.now() - startTime` at tick entry, whether `popup.closed` holds, and
the outcome `getUser` would produce if called during this tick. -/
structure PollEnv where
  elapsed : Nat
  closed : Bool
  probe : ProbeOutcome
deriving DecidableEq

/-- Observable actions of one polling tick: whether `clearInterval` ran
(via `cleanup()`), whether `popup.close()` was attempted, how many times
`getUser` was called, and the settlement (if any) performed. -/
structure TickEffects where
  clearedTimer : Bool
  closedPopup : Bool
  probes : Nat
  settled : Option PollSettle
deriving DecidableEq

/-- One tick of the `setInterval` callback, mirroring the source order:

1. if the elapsed time exceeds `timeoutMs`, clean up, close the popup and
   reject with `TIMEOUT`;
2. else if the popup is closed, clean up, attempt one final confirmation
   when `getUser` exists — resolving on a valid identity — and otherwise
   reject with `USER_CANCELLED`;
3. else probe the session when `getUser` exists: a valid identity cleans
   up, closes the popup and resolves; any other outcome leaves the loop
   polling.

`g` is whether `window.puter && window.puter.getUser` holds during the
tick. -/
def pollTick (g : Bool) (timeoutMs : Nat) (env : PollEnv) : TickEffects :=
  if env.elapsed > timeoutMs then
    ⟨true, true, 0, some (PollSettle.reject (timeoutErr timeoutMs))⟩
  else if env.closed then
    if g then
      if validIdentity env.probe then ⟨true, false, 1, some PollSettle.resolve⟩
      else ⟨true, false, 1, some (PollSettle.reject userCancelledErr)⟩
    else ⟨true, false, 0, some (PollSettle.reject userCancelledErr)⟩
  else
    if g then
      if validIdentity env.probe then ⟨true, true, 1, some PollSettle.resolve⟩
      else ⟨false, false, 1, none⟩
    else ⟨false, false, 0, none⟩

/-- The polling loop run over a (finite prefix of the) schedule of tick
environments: ticks keep firing while the interval timer has not been
cleared; once a tick clears the timer no further tick fires. -/
def runPoll (g : Bool) (timeoutMs : Nat) : List PollEnv → List TickEffects
  | [] => []
  | e :: es =>
    if (pollTick g timeoutMs e).clearedTimer then [pollTick g timeoutMs e]
    else pollTick g timeoutMs e :: runPoll g timeoutMs es

/-- Result of `authenticateWithPopup`: the settlement reached within the
supplied schedule (`none` when the loop is still polling at its end),
whether the polling timer was ever started, and the tick trace. -/
structure PopupRun where
  outcome : Option PollSettle
  timerStarted : Bool
  ticks : List TickEffects
deriving DecidableEq

/-- `authenticateWithPopup`: after opening the popup, a null or
immediately-closed handle rejects synchronously with `POPUP_BLOCKED`,
before the `setInterval` timer is created; otherwise the polling loop
runs and the first settlement (if any) decides the promise. -/
def authenticateWithPopup (h : PopupHandle) (g : Bool) (timeoutMs : Nat)
    (envs : List PollEnv) : PopupRun :=
  if !h.opened || h.closedImmediately then
    ⟨some (PollSettle.reject popupBlockedErr), false, []⟩
  else
    let r := runPoll g timeoutMs envs
    ⟨(r.filterMap TickEffects.settled).head?, true, r⟩

/-- The polling period of the source: `setInterval(..., 500)`. -/
def pollIntervalMs : Nat := 500

/-- Firing time of the k-th tick (0-based), relative to `startTime`:
`setInterval` fires its callback every `pollIntervalMs` milliseconds, so
the k-th firing happens `pollIntervalMs * (k + 1)` after registration.
Because the callback is an `async` function, the interval timer does not
wait for a previous callback to finish. -/
def tickFire (k : Nat) : Nat := pollIntervalMs * (k + 1)

/-- Completion time of the k-th tick when its session probe takes
`lat k` milliseconds: the callback suspends at `await
window.puter.getUser()` and its remaining code runs only once the probe
settles. -/
def tickCompletion (lat : Nat → Nat) (k : Nat) : Nat := tickFire k + lat k

/-- The serialization property claimed by the spec for a run of `n`
ticks: every tick's callback completes before the next tick fires. -/
def ticksSerialized (lat : Nat → Nat) (n : Nat) : Prop :=
  ∀ k, k + 1 < n → tickCompletion lat k ≤ tickFire (k + 1)

/-! ## The simpler guard variant (`src/unnamed/part_000`) -/

/-- How the simpler `ensurePuterAuth` variant ends: it either resolves or
throws `new Error("Authentication failed. Please try again.")` — a plain
error carrying only a message and no kind. -/
inductive SimpleResult
  | resolved
  | rejectedPlain (message : String)
deriving DecidableEq

/-- The message of the plain error thrown by the simpler variant. -/
def authRetryMsg : String := "Authentication failed. Please try again."

/-- `ensurePuterAuth` of `src/unnamed/part_000`: await `getUser()` and
resolve if it does not throw — the resolved value is never inspected; on
a throw, call `auth.signIn` and then `getUser` again, resolving when
neither throws and otherwise rejecting with the plain error.  The second
component records whether `signIn` was called. -/
def ensurePuterAuthSimple (probe1 : ProbeOutcome) (signInThrows : Bool)
    (probe2 : ProbeOutcome) : SimpleResult × Bool :=
  match probe1 with
  | ProbeOutcome.ok _ => (SimpleResult.resolved, false)
  | ProbeOutcome.throwErr =>
    if signInThrows then (SimpleResult.rejectedPlain authRetryMsg, true)
    else
      match probe2 with
      | ProbeOutcome.ok _ => (SimpleResult.resolved, true)
      | ProbeOutcome.throwErr => (SimpleResult.rejectedPlain authRetryMsg, true)

/-! ## Helper lemmas about lines and substring detection -/

theorem linesOf_ne_nil (l : List Char) : linesOf l ≠ [] := by
  cases l with
  | nil => simp [linesOf]
  | cons c cs => simp only [linesOf]; split <;> simp

theorem linesOf_cons_headI_tail (l : List Char) :
    (linesOf l).headI :: (linesOf l).tail = linesOf l := by
  cases h : linesOf l with
  | nil => exact absurd h (linesOf_ne_nil l)
  | cons a as => rfl

theorem headI_linesOf (l : List Char) : (linesOf l).headI = firstLine l := by
  induction l with
  | nil => rfl
  | cons c cs ih =>
    by_cases hc : c = '\n'
    · subst hc; simp [linesOf, firstLine, List.takeWhile_cons]
    · simp [linesOf, firstLine, List.takeWhile_cons, hc, ih]

theorem isPrefixOf_firstLine (pat : List Char) (hnl : '\n' ∉ pat) :
    ∀ l : List Char, pat.isPrefixOf l = pat.isPrefixOf (firstLine l) := by
  induction pat with
  | nil => intro l; simp
  | cons p ps ih =>
    intro l
    have hp : p ≠ '\n' := fun h => hnl (h ▸ List.mem_cons_self p ps)
    have hps : '\n' ∉ ps := fun h => hnl (List.mem_cons_of_mem p h)
    cases l with
    | nil => rfl
    | cons c cs =>
      by_cases hc : c = '\n'
      · subst hc
        simp [firstLine, List.takeWhile_cons, List.isPrefixOf]
        intro h; exact absurd h hp
      · simp only [firstLine, List.takeWhile_cons]
        have : (c != '\n') = true := by simp [hc]
        rw [this]
        simp only [if_true]
        show ((p == c) && ps.isPrefixOf cs) =
          ((p == c) && ps.isPrefixOf (cs.takeWhile (fun c => c != '\n')))
        rw [ih hps cs]; rfl

theorem numRest_firstLine : ∀ l : List Char, numRest l = numRest (firstLine l) := by
  intro l
  induction l with
  | nil => rfl
  | cons c cs ih =>
    by_cases hdot : c = '.'
    · subst hdot; simp [numRest, firstLine, List.takeWhile_cons]
    · by_cases hdig : c.isDigit
      · have hc : c ≠ '\n' := by
          intro h; subst h; simp [Char.isDigit] at hdig
        simp [numRest, firstLine, List.takeWhile_cons, hdot, hdig, hc]
        rw [ih]; rfl
      · by_cases hc : c = '\n'
        · subst hc; simp [numRest, firstLine, List.takeWhile_cons, hdot, hdig]
        · simp [numRest, firstLine, List.takeWhile_cons, hdot, hdig, hc]

theorem numPrefix_firstLine : ∀ l : List Char, numPrefix l = numPrefix (firstLine l) := by
  intro l
  cases l with
  | nil => rfl
  | cons c cs =>
    by_cases hdig : c.isDigit
    · have hc : c ≠ '\n' := by
        intro h; subst h; simp [Char.isDigit] at hdig
      simp [numPrefix, firstLine, List.takeWhile_cons, hc]
      rw [numRest_firstLine cs]; rfl
    · by_cases hc : c = '\n'
      · subst hc; simp [numPrefix, firstLine, List.takeWhile_cons, hdig]
      · simp [numPrefix, firstLine, List.takeWhile_cons, hc, hdig]

theorem any_orb (l : List (List Char)) (f g : List Char → Bool) :
    (l.any fun x => f x || g x) = (l.any f || l.any g) := by
  induction l with
  | nil => rfl
  | cons a as ih =>
    simp only [List.any_cons, ih]
    cases f a <;> cases g a <;> cases as.any f <;> cases as.any g <;> rfl

theorem linesOf_nl_cons (cs : List Char) :
    linesOf ('\n' :: cs) = [] :: linesOf cs := by
  simp [linesOf]

theorem linesOf_other_cons (c : Char) (cs : List Char) (hc : c ≠ '\n') :
    linesOf (c :: cs) = (c :: (linesOf cs).headI) :: (linesOf cs).tail := by
  simp [linesOf, hc]

theorem joinSep_cons_of_ne_nil (sep : Char) (a : List Char)
    (ls : List (List Char)) (h : ls ≠ []) :
    joinSep sep (a :: ls) = a ++ sep :: joinSep sep ls := by
  cases ls with
  | nil => exact absurd rfl h
  | cons b bs => rfl

theorem containsSub_nl_eq_any (pat : List Char) (hnl : '\n' ∉ pat) :
    ∀ l : List Char,
      containsSub ('\n' :: pat) l = (linesOf l).tail.any pat.isPrefixOf := by
  intro l
  induction l with
  | nil => simp [containsSub, linesOf]
  | cons c cs ih =>
    by_cases hc : c = '\n'
    · subst hc
      have h2 : containsSub ('\n' :: pat) ('\n' :: cs)
          = (pat.isPrefixOf cs || containsSub ('\n' :: pat) cs) := by
        simp [containsSub, List.isPrefixOf_cons₂]
      rw [h2, linesOf_nl_cons, List.tail_cons, ih]
      conv_rhs => rw [← linesOf_cons_headI_tail cs]
      rw [List.any_cons, headI_linesOf, ← isPrefixOf_firstLine pat hnl]
    · have hne : ('\n' == c) = false := by
        simp only [beq_eq_false_iff_ne]
        exact fun h => hc h.symm
      have h2 : containsSub ('\n' :: pat) (c :: cs)
          = containsSub ('\n' :: pat) cs := by
        simp [containsSub, List.isPrefixOf_cons₂, hne]
      rw [h2, linesOf_other_cons c cs hc, List.tail_cons, ih]

theorem hasNlNum_eq_any :
    ∀ l : List Char, hasNlNum l = (linesOf l).tail.any numPrefix := by
  intro l
  induction l with
  | nil => simp [hasNlNum, linesOf]
  | cons c cs ih =>
    by_cases hc : c = '\n'
    · subst hc
      have h2 : hasNlNum ('\n' :: cs) = (numPrefix cs || hasNlNum cs) := by
        simp [hasNlNum]
      rw [h2, linesOf_nl_cons, List.tail_cons, ih]
      conv_rhs => rw [← linesOf_cons_headI_tail cs]
      rw [List.any_cons, headI_linesOf, ← numPrefix_firstLine]
    · have hne : (c == '\n') = false := by
        simp only [beq_eq_false_iff_ne]
        exact hc
      have h2 : hasNlNum (c :: cs) = hasNlNum cs := by
        simp [hasNlNum, hne]
      rw [h2, linesOf_other_cons c cs hc, List.tail_cons, ih]

theorem joinSep_linesOf : ∀ l : List Char, joinSep '\n' (linesOf l) = l := by
  intro l
  induction l with
  | nil => rfl
  | cons c cs ih =>
    by_cases hc : c = '\n'
    · subst hc
      rw [linesOf_nl_cons, joinSep_cons_of_ne_nil _ _ _ (linesOf_ne_nil cs), ih]
      rfl
    · rw [linesOf_other_cons c cs hc]
      cases h2 : linesOf cs with
      | nil => exact absurd h2 (linesOf_ne_nil cs)
      | cons t ts =>
        rw [h2] at ih
        cases ts with
        | nil =>
          simp only [List.headI, List.tail]
          simp only [joinSep] at ih ⊢
          simp [ih]
        | cons u us =>
          simp only [List.headI, List.tail]
          rw [joinSep_cons_of_ne_nil _ _ _ (by simp)]
          rw [joinSep_cons_of_ne_nil _ _ _ (by simp)] at ih
          rw [← ih]
          rfl

theorem linesOf_append_nl (hd : List Char) (hnl : '\n' ∉ hd) (rest : List Char) :
    linesOf (hd ++ '\n' :: rest) = hd :: linesOf rest := by
  induction hd with
  | nil => simp [linesOf_nl_cons]
  | cons c cs ih =>
    have hc : c ≠ '\n' := fun h => hnl (h ▸ List.mem_cons_self c cs)
    have hcs : '\n' ∉ cs := fun h => hnl (List.mem_cons_of_mem c h)
    rw [List.cons_append, linesOf_other_cons c _ hc, ih hcs]
    rfl

/-! ## Helper lemmas about the guard embedding -/

theorem proceedToPopup_resetInvoked (opts : EnsurePuterAuthOptions)
    (pr : PopupOutcome) (probes : Nat) (reset : Bool) :
    (proceedToPopup opts pr probes reset).resetInvoked = reset := by
  cases h : opts.popup <;> cases pr <;> simp [proceedToPopup, h]

theorem proceedToPopup_outerProbes (opts : EnsurePuterAuthOptions)
    (pr : PopupOutcome) (probes : Nat) (reset : Bool) :
    (proceedToPopup opts pr probes reset).outerProbes = probes := by
  cases h : opts.popup <;> cases pr <;> simp [proceedToPopup, h]

theorem proceedToPopup_popupEntered (opts : EnsurePuterAuthOptions)
    (pr : PopupOutcome) (probes : Nat) (reset : Bool) :
    (proceedToPopup opts pr probes reset).popupEntered = opts.popup := by
  cases h : opts.popup <;> cases pr <;> simp [proceedToPopup, h]

theorem proceedToPopup_result_not_raw (opts : EnsurePuterAuthOptions)
    (pr : PopupOutcome) (probes : Nat) (reset : Bool) :
    (proceedToPopup opts pr probes reset).result = EnsureResult.resolved ∨
    ∃ e : PuterAuthError,
      (proceedToPopup opts pr probes reset).result = EnsureResult.rejectedAuth e := by
  cases h : opts.popup <;> cases pr <;> simp [proceedToPopup, h]

theorem pollTick_settled_cleared (g : Bool) (t : Nat) (e : PollEnv) :
    (pollTick g t e).settled ≠ none → (pollTick g t e).clearedTimer = true := by
  unfold pollTick
  split_ifs <;> simp

theorem runPoll_mem (g : Bool) (t : Nat) :
    ∀ (envs : List PollEnv) (eff : TickEffects), eff ∈ runPoll g t envs →
      ∃ e, e ∈ envs ∧ eff = pollTick g t e := by
  intro envs
  induction envs with
  | nil => intro eff h; simp [runPoll] at h
  | cons e es ih =>
    intro eff h
    simp only [runPoll] at h
    by_cases hcl : (pollTick g t e).clearedTimer
    · rw [if_pos hcl] at h
      simp at h
      exact ⟨e, List.mem_cons_self e es, h⟩
    · rw [if_neg hcl] at h
      rcases List.mem_cons.mp h with h1 | h2
      · exact ⟨e, List.mem_cons_self e es, h1⟩
      · rcases ih eff h2 with ⟨e2, he2, heq⟩
        exact ⟨e2, List.mem_cons_of_mem e he2, heq⟩

theorem runPoll_settles_le_one (g : Bool) (t : Nat) :
    ∀ envs : List PollEnv,
      ((runPoll g t envs).filterMap TickEffects.settled).length ≤ 1 := by
  intro envs
  induction envs with
  | nil => simp [runPoll]
  | cons e es ih =>
    simp only [runPoll]
    by_cases hcl : (pollTick g t e).clearedTimer
    · rw [if_pos hcl]
      cases hs : (pollTick g t e).settled <;> simp [List.filterMap, hs]
    · rw [if_neg hcl]
      have hs : (pollTick g t e).settled = none := by
        by_contra hne
        exact hcl (pollTick_settled_cleared g t e hne)
      simp [List.filterMap_cons, hs, ih]

theorem pollTick_false_settled (t : Nat) (e : PollEnv) (s : PollSettle)
    (h : (pollTick false t e).settled = some s) :
    s = PollSettle.reject (timeoutErr t) ∨ s = PollSettle.reject userCancelledErr := by
  by_cases h1 : e.elapsed > t
  · left
    have hs : (pollTick false t e).settled =
        some (PollSettle.reject (timeoutErr t)) := by
      unfold pollTick
      rw [if_pos h1]
    rw [hs] at h
    exact (Option.some.inj h).symm
  · by_cases h2 : e.closed
    · right
      have hs : (pollTick false t e).settled =
          some (PollSettle.reject userCancelledErr) := by
        unfold pollTick
        rw [if_neg h1, if_pos h2]
        rfl
      rw [hs] at h
      exact (Option.some.inj h).symm
    · exfalso
      have hs : (pollTick false t e).settled = none := by
        unfold pollTick
        rw [if_neg h1, if_neg h2]
        rfl
      rw [hs] at h
      exact Option.noConfusion h

/-! ## Claims -/

/-- Claim C1, amended: the local token-reset hook is invoked exactly when
the SDK handle is present, the session-confirmation call rejects or
throws, and the hook exists; a confirmation that resolves with an
absent/empty identity does not trigger the hook (the guard proceeds
straight to the popup flow); and a failure of the hook is not ignored —
it propagates out of the guard as a raw rejection and the popup flow is
skipped. -/
theorem resetHook_scope :
    (∀ (env : SDKEnv) (opts : EnsurePuterAuthOptions) (pr : PopupOutcome),
      (ensurePuterAuth env opts pr).resetInvoked = true ↔
        env.puterPresent = true ∧
        env.getUserMethod = some ProbeOutcome.throwErr ∧
        env.resetPresent = true)
    ∧ (∀ (env : SDKEnv) (opts : EnsurePuterAuthOptions) (pr : PopupOutcome),
      env.puterPresent = true → env.getUserMethod = some ProbeOutcome.throwErr →
      env.resetPresent = true → env.resetThrows = true →
      ensurePuterAuth env opts pr =
        ⟨EnsureResult.rejectedRaw env.resetErrMsg, 1, true, false⟩) := by
  constructor
  · intro env opts pr
    rcases env with ⟨pp, gum, rp, rt, msg⟩
    cases pp
    · simp [ensurePuterAuth]
    · cases gum with
      | none => simp [ensurePuterAuth, proceedToPopup_resetInvoked]
      | some probe =>
        cases probe with
        | ok u =>
          by_cases hu : truthyUsername u <;>
            simp [ensurePuterAuth, hu, proceedToPopup_resetInvoked]
        | throwErr =>
          cases rp
          · simp [ensurePuterAuth, proceedToPopup_resetInvoked]
          · cases rt <;> simp [ensurePuterAuth, proceedToPopup_resetInvoked]
  · intro env opts pr h1 h2 h3 h4
    rcases env with ⟨pp, gum, rp, rt, msg⟩
    simp only at h1 h2 h3 h4
    subst h1; subst h2; subst h3; subst h4
    rfl

/-- Witness for `resetHook_scope`: a present, throwing hook at a concrete
environment. -/
theorem resetHook_scope_witness :
    ensurePuterAuth ⟨true, some ProbeOutcome.throwErr, true, true, "m"⟩
        defaultOptions PopupOutcome.success =
      ⟨EnsureResult.rejectedRaw "m", 1, true, false⟩ :=
  resetHook_scope.2 ⟨true, some ProbeOutcome.throwErr, true, true, "m"⟩
    defaultOptions PopupOutcome.success rfl rfl rfl rfl

/-- Claim C1 counterexample: with the SDK present, `getUser` resolving
with a null identity (one of the three failure modes the claim lists) and
`resetAuthToken` available, the hook is not invoked although the guard
proceeds to the popup flow; and when the confirmation call throws and the
hook itself throws, the guard rejects with the hook's raw error instead
of ignoring the failure. -/
theorem resetHook_scope_counterexample :
    (ensurePuterAuth ⟨true, some (ProbeOutcome.ok none), true, false, "boom"⟩
        defaultOptions PopupOutcome.success).resetInvoked = false
    ∧ (ensurePuterAuth ⟨true, some (ProbeOutcome.ok none), true, false, "boom"⟩
        defaultOptions PopupOutcome.success).popupEntered = true
    ∧ (ensurePuterAuth ⟨true, some ProbeOutcome.throwErr, true, true, "boom"⟩
        defaultOptions PopupOutcome.success).result =
      EnsureResult.rejectedRaw "boom" :=
  ⟨rfl, rfl, rfl⟩

/-- Claim C2, amended: in the main guard (`puter-auth.ts`), a session
whose confirmation resolves with a non-empty user name resolves the guard
immediately, with one probe, no reset-hook call and no popup; and a
confirmation that resolves with a null identity or a missing/empty user
name does not count as authenticated — the guard proceeds to the popup
flow (or rejects with `AUTH_FAILED` when popups are disabled).  The
simpler guard variant (`part_000`) instead treats every non-throwing
confirmation as authenticated, without inspecting the resolved value. -/
theorem validSession_resolves :
    (∀ (env : SDKEnv) (opts : EnsurePuterAuthOptions) (pr : PopupOutcome)
      (u : Option UserObj),
      env.puterPresent = true → env.getUserMethod = some (ProbeOutcome.ok u) →
      truthyUsername u = true →
      ensurePuterAuth env opts pr = ⟨EnsureResult.resolved, 1, false, false⟩)
    ∧ (∀ (env : SDKEnv) (opts : EnsurePuterAuthOptions) (pr : PopupOutcome)
      (u : Option UserObj),
      env.puterPresent = true → env.getUserMethod = some (ProbeOutcome.ok u) →
      truthyUsername u = false →
      (ensurePuterAuth env opts pr).resetInvoked = false ∧
      (ensurePuterAuth env opts pr).popupEntered = opts.popup ∧
      (opts.popup = false →
        (ensurePuterAuth env opts pr).result =
          EnsureResult.rejectedAuth popupDisabledErr))
    ∧ (∀ (v : Option UserObj) (b : Bool) (p2 : ProbeOutcome),
      ensurePuterAuthSimple (ProbeOutcome.ok v) b p2 =
        (SimpleResult.resolved, false)) := by
  refine ⟨?_, ?_, ?_⟩
  · intro env opts pr u h1 h2 h3
    rcases env with ⟨pp, gum, rp, rt, msg⟩
    simp only at h1 h2
    subst h1; subst h2
    simp [ensurePuterAuth, h3]
  · intro env opts pr u h1 h2 h3
    rcases env with ⟨pp, gum, rp, rt, msg⟩
    simp only at h1 h2
    subst h1; subst h2
    refine ⟨?_, ?_, ?_⟩
    · simp [ensurePuterAuth, h3, proceedToPopup_resetInvoked]
    · simp [ensurePuterAuth, h3, proceedToPopup_popupEntered]
    · intro hp
      simp [ensurePuterAuth, h3, proceedToPopup, hp]
  · intro v b p2
    rfl

/-- Witness for `validSession_resolves`: a concrete valid session. -/
theorem validSession_witness :
    ensurePuterAuth
        ⟨true, some (ProbeOutcome.ok (some ⟨some "alice"⟩)), false, false, ""⟩
        defaultOptions PopupOutcome.success =
      ⟨EnsureResult.resolved, 1, false, false⟩ :=
  validSession_resolves.1
    ⟨true, some (ProbeOutcome.ok (some ⟨some "alice"⟩)), false, false, ""⟩
    defaultOptions PopupOutcome.success (some ⟨some "alice"⟩) rfl rfl (by decide)

/-- Claim C2 counterexample: in the simpler guard variant of `part_000`,
a session-confirmation call that resolves with a null identity counts as
authenticated — the guard resolves immediately (without calling
`signIn`), contradicting the claim that such a confirmation does not
count as authenticated. -/
theorem validSession_counterexample :
    ensurePuterAuthSimple (ProbeOutcome.ok none) false ProbeOutcome.throwErr =
      (SimpleResult.resolved, false) :=
  rfl

/-- Claim C5, amended: every rejection the main guard produces itself
carries a stable kind from the taxonomy — the only kind-less rejection
path is an error thrown by the SDK's own reset hook, which propagates
raw; the simpler guard variant of `part_000`, however, rejects with a
plain `Error` carrying only the fixed message
`"Authentication failed. Please try again."` and no kind at all. -/
theorem errors_carry_kind :
    (∀ (env : SDKEnv) (opts : EnsurePuterAuthOptions) (pr : PopupOutcome),
      env.resetThrows = false →
      (ensurePuterAuth env opts pr).result = EnsureResult.resolved ∨
      ∃ e : PuterAuthError,
        (ensurePuterAuth env opts pr).result = EnsureResult.rejectedAuth e)
    ∧ (∀ (p1 : ProbeOutcome) (b : Bool) (p2 : ProbeOutcome) (m : String),
      (ensurePuterAuthSimple p1 b p2).1 = SimpleResult.rejectedPlain m →
      m = authRetryMsg) := by
  constructor
  · intro env opts pr hrt
    rcases env with ⟨pp, gum, rp, rt, msg⟩
    simp only at hrt
    subst hrt
    cases pp
    · simp [ensurePuterAuth]
    · cases gum with
      | none => exact proceedToPopup_result_not_raw opts pr 0 false
      | some probe =>
        cases probe with
        | ok u =>
          by_cases hu : truthyUsername u
          · simp [ensurePuterAuth, hu]
          · simpa [ensurePuterAuth, hu] using
              proceedToPopup_result_not_raw opts pr 1 false
        | throwErr =>
          cases rp
          · simpa [ensurePuterAuth] using
              proceedToPopup_result_not_raw opts pr 1 false
          · simpa [ensurePuterAuth] using
              proceedToPopup_result_not_raw opts pr 1 true
  · intro p1 b p2 m h
    cases p1 with
    | ok u => simp [ensurePuterAuthSimple] at h
    | throwErr =>
      cases b with
      | true =>
        simp [ensurePuterAuthSimple] at h
        exact h.symm
      | false =>
        cases p2 with
        | ok u => simp [ensurePuterAuthSimple] at h
        | throwErr =>
          simp [ensurePuterAuthSimple] at h
          exact h.symm

/-- Witness for `errors_carry_kind`: concrete instantiations of both
parts. -/
theorem errors_carry_kind_witness :
    ((ensurePuterAuth ⟨true, some ProbeOutcome.throwErr, false, false, ""⟩
        defaultOptions (PopupOutcome.otherError "boom")).result =
          EnsureResult.resolved ∨
      ∃ e : PuterAuthError,
        (ensurePuterAuth ⟨true, some ProbeOutcome.throwErr, false, false, ""⟩
            defaultOptions (PopupOutcome.otherError "boom")).result =
          EnsureResult.rejectedAuth e)
    ∧ authRetryMsg = authRetryMsg :=
  ⟨errors_carry_kind.1 ⟨true, some ProbeOutcome.throwErr, false, false, ""⟩
      defaultOptions (PopupOutcome.otherError "boom") rfl,
   errors_carry_kind.2 ProbeOutcome.throwErr true ProbeOutcome.throwErr
      authRetryMsg rfl⟩

/-- Claim C5 counterexample: the guard variant of `part_000` rejects with
a plain error that carries only a message — there is no kind a caller
could branch on. -/
theorem errors_carry_kind_counterexample :
    ensurePuterAuthSimple ProbeOutcome.throwErr true ProbeOutcome.throwErr =
      (SimpleResult.rejectedPlain "Authentication failed. Please try again.",
       true) :=
  rfl

/-- Claim C3, confirmed: a null or immediately-closed popup handle makes
the popup sub-flow reject with kind `POPUP_BLOCKED` synchronously — the
polling timer is never started and no tick runs; and `ensurePuterAuth`
re-throws that `PuterAuthError` unchanged (shown for a representative
invalid session with popups enabled). -/
theorem popupBlocked_no_timer :
    (∀ (h : PopupHandle) (g : Bool) (t : Nat) (envs : List PollEnv),
      h.opened = false ∨ h.closedImmediately = true →
      authenticateWithPopup h g t envs =
        ⟨some (PollSettle.reject popupBlockedErr), false, []⟩)
    ∧ (∀ (env : SDKEnv) (opts : EnsurePuterAuthOptions),
      env.puterPresent = true → env.getUserMethod = some (ProbeOutcome.ok none) →
      opts.popup = true →
      (ensurePuterAuth env opts (PopupOutcome.authError popupBlockedErr)).result =
        EnsureResult.rejectedAuth popupBlockedErr)
    ∧ popupBlockedErr.code = PuterAuthCode.POPUP_BLOCKED := by
  refine ⟨?_, ?_, rfl⟩
  · intro h g t envs hcase
    rcases h with ⟨ho, hci⟩
    rcases hcase with h1 | h2
    · simp only at h1
      subst h1
      rfl
    · simp only at h2
      subst h2
      cases ho <;> rfl
  · intro env opts h1 h2 h3
    rcases env with ⟨pp, gum, rp, rt, msg⟩
    simp only at h1 h2
    subst h1; subst h2
    simp [ensurePuterAuth, truthyUsername, proceedToPopup, h3]

/-- Witness for `popupBlocked_no_timer`: a concrete blocked popup. -/
theorem popupBlocked_no_timer_witness :
    authenticateWithPopup ⟨false, false⟩ true 60000 [] =
      ⟨some (PollSettle.reject popupBlockedErr), false, []⟩ :=
  popupBlocked_no_timer.1 ⟨false, false⟩ true 60000 [] (Or.inl rfl)

/-- Claim C4, confirmed: when `getUser` is available, a polling tick that
observes the popup closed with the timeout not yet exceeded clears the
timer (stopping the polling), does not try to close the popup, performs
exactly one final session confirmation, and settles — resolving on a
valid identity and rejecting with kind `USER_CANCELLED` otherwise; no
later tick fires in the run. -/
theorem pollTick_popupClosed :
    ∀ (t : Nat) (env : PollEnv) (rest : List PollEnv),
      env.closed = true → env.elapsed ≤ t →
      pollTick true t env =
        ⟨true, false, 1,
         some (if validIdentity env.probe then PollSettle.resolve
               else PollSettle.reject userCancelledErr)⟩
      ∧ runPoll true t (env :: rest) = [pollTick true t env] := by
  intro t env rest hclosed htime
  have htick : pollTick true t env =
      ⟨true, false, 1,
       some (if validIdentity env.probe then PollSettle.resolve
             else PollSettle.reject userCancelledErr)⟩ := by
    unfold pollTick
    rw [if_neg (by omega : ¬env.elapsed > t), if_pos hclosed]
    by_cases hv : validIdentity env.probe <;> simp [hv]
  refine ⟨htick, ?_⟩
  simp only [runPoll]
  rw [if_pos (by rw [htick])]

/-- Witness for `pollTick_popupClosed`: a concrete closed-popup tick with
a still-failing probe. -/
theorem pollTick_popupClosed_witness :
    pollTick true 60000 ⟨1000, true, ProbeOutcome.throwErr⟩ =
      ⟨true, false, 1,
       some (if validIdentity ProbeOutcome.throwErr then PollSettle.resolve
             else PollSettle.reject userCancelledErr)⟩
    ∧ runPoll true 60000 [⟨1000, true, ProbeOutcome.throwErr⟩] =
      [pollTick true 60000 ⟨1000, true, ProbeOutcome.throwErr⟩] :=
  pollTick_popupClosed 60000 ⟨1000, true, ProbeOutcome.throwErr⟩ [] rfl
    (by decide)

/-- Claim C6, amended: within one polling run at most one settlement is
performed, every settling tick has first cleared the interval timer (so
the timer is released on success, timeout and cancellation alike), and —
because the tick callback is an `async` function which `setInterval` does
not wait for — ticks are serialized exactly when every session probe
finishes within the 500 ms interval; a slower probe lets the next tick
fire before the previous one completes. -/
theorem pollLoop_single_settlement :
    (∀ (g : Bool) (t : Nat) (envs : List PollEnv),
      ((runPoll g t envs).filterMap TickEffects.settled).length ≤ 1)
    ∧ (∀ (g : Bool) (t : Nat) (envs : List PollEnv) (eff : TickEffects),
      eff ∈ runPoll g t envs → eff.settled ≠ none → eff.clearedTimer = true)
    ∧ (∀ (lat : Nat → Nat) (n : Nat), (∀ k, lat k ≤ pollIntervalMs) →
      ticksSerialized lat n) := by
  refine ⟨runPoll_settles_le_one, ?_, ?_⟩
  · intro g t envs eff hmem hne
    rcases runPoll_mem g t envs eff hmem with ⟨e, _, heq⟩
    subst heq
    exact pollTick_settled_cleared g t e hne
  · intro lat n hlat k hk
    have := hlat k
    simp only [ticksSerialized, tickCompletion, tickFire, pollIntervalMs] at *
    omega

/-- Witness for `pollLoop_single_settlement`: a concrete run and a
concrete fast-probe latency profile. -/
theorem pollLoop_single_settlement_witness :
    ((runPoll true 60000
        [⟨500, false, ProbeOutcome.throwErr⟩,
         ⟨1000, true, ProbeOutcome.throwErr⟩]).filterMap
      TickEffects.settled).length ≤ 1
    ∧ ticksSerialized (fun _ => 100) 5 :=
  ⟨pollLoop_single_settlement.1 true 60000
      [⟨500, false, ProbeOutcome.throwErr⟩, ⟨1000, true, ProbeOutcome.throwErr⟩],
   pollLoop_single_settlement.2.2 (fun _ => 100) 5
      (fun k => by norm_num [pollIntervalMs])⟩

/-- Claim C6 counterexample: with a session probe taking 600 ms — longer
than the 500 ms polling interval — the second tick fires (at 1000 ms
after registration) before the first tick's callback completes (at
1100 ms), so poll ticks are not serialized and the no-re-entrancy part of
the claim fails. -/
theorem pollLoop_reentrancy_counterexample :
    ¬ ticksSerialized (fun _ => 600) 2 := by
  intro h
  have h0 := h 0 (by omega)
  simp only [tickCompletion, tickFire, pollIntervalMs] at h0
  omega

/-- Claim C10, confirmed: when the SDK handle exists but exposes no
`getUser`, the guard performs no verification probe and no reset, treats
the session as unauthenticated and proceeds directly to the popup flow
(rejecting with `AUTH_FAILED` when popups are disabled); and a polling
loop without `getUser` can never resolve — every settlement it performs
is a rejection with kind `TIMEOUT` or `USER_CANCELLED`. -/
theorem noGetUser_behavior :
    (∀ (env : SDKEnv) (opts : EnsurePuterAuthOptions) (pr : PopupOutcome),
      env.puterPresent = true → env.getUserMethod = none →
      (ensurePuterAuth env opts pr).outerProbes = 0 ∧
      (ensurePuterAuth env opts pr).resetInvoked = false ∧
      (ensurePuterAuth env opts pr).popupEntered = opts.popup ∧
      (opts.popup = false →
        (ensurePuterAuth env opts pr).result =
          EnsureResult.rejectedAuth popupDisabledErr))
    ∧ (∀ (t : Nat) (envs : List PollEnv) (s : PollSettle),
      s ∈ (runPoll false t envs).filterMap TickEffects.settled →
      s = PollSettle.reject (timeoutErr t) ∨
      s = PollSettle.reject userCancelledErr)
    ∧ popupDisabledErr.code = PuterAuthCode.AUTH_FAILED := by
  refine ⟨?_, ?_, rfl⟩
  · intro env opts pr h1 h2
    rcases env with ⟨pp, gum, rp, rt, msg⟩
    simp only at h1 h2
    subst h1; subst h2
    refine ⟨?_, ?_, ?_, ?_⟩
    · simp [ensurePuterAuth, proceedToPopup_outerProbes]
    · simp [ensurePuterAuth, proceedToPopup_resetInvoked]
    · simp [ensurePuterAuth, proceedToPopup_popupEntered]
    · intro hp
      simp [ensurePuterAuth, proceedToPopup, hp]
  · intro t envs s hmem
    rcases List.mem_filterMap.mp hmem with ⟨eff, heff, hset⟩
    rcases runPoll_mem false t envs eff heff with ⟨e, _, heq⟩
    subst heq
    exact pollTick_false_settled t e s hset

/-- Witness for `noGetUser_behavior`: a concrete SDK without `getUser`
and a concrete `getUser`-less polling run that times out. -/
theorem noGetUser_behavior_witness :
    ((ensurePuterAuth ⟨true, none, false, false, ""⟩ defaultOptions
        PopupOutcome.success).outerProbes = 0 ∧
      (ensurePuterAuth ⟨true, none, false, false, ""⟩ defaultOptions
        PopupOutcome.success).resetInvoked = false ∧
      (ensurePuterAuth ⟨true, none, false, false, ""⟩ defaultOptions
        PopupOutcome.success).popupEntered = defaultOptions.popup ∧
      (defaultOptions.popup = false →
        (ensurePuterAuth ⟨true, none, false, false, ""⟩ defaultOptions
          PopupOutcome.success).result =
        EnsureResult.rejectedAuth popupDisabledErr))
    ∧ (PollSettle.reject (timeoutErr 600) = PollSettle.reject (timeoutErr 600) ∨
       PollSettle.reject (timeoutErr 600) = PollSettle.reject userCancelledErr) :=
  ⟨noGetUser_behavior.1 ⟨true, none, false, false, ""⟩ defaultOptions
      PopupOutcome.success rfl rfl,
   noGetUser_behavior.2.1 600 [⟨601, false, ProbeOutcome.throwErr⟩]
      (PollSettle.reject (timeoutErr 600)) (by decide)⟩

theorem bulletDetect_eq_any (p : List Char) :
    bulletDetect p = (linesOf p).tail.any isBulletStart := by
  have h1 := containsSub_nl_eq_any ['-', ' '] (by decide) p
  have h2 := containsSub_nl_eq_any ['*', ' '] (by decide) p
  have h3 := containsSub_nl_eq_any ['•', ' '] (by decide) p
  have h4 : (linesOf p).tail.any isBulletStart =
      ((linesOf p).tail.any (['-', ' '].isPrefixOf) ||
       (linesOf p).tail.any (['*', ' '].isPrefixOf) ||
       (linesOf p).tail.any (['•', ' '].isPrefixOf)) := by
    induction (linesOf p).tail with
    | nil => rfl
    | cons a as ih =>
      simp only [List.any_cons, ih, isBulletStart]
      cases (['-', ' '].isPrefixOf a) <;> cases (['*', ' '].isPrefixOf a) <;>
        cases (['•', ' '].isPrefixOf a) <;>
        cases as.any (['-', ' '].isPrefixOf) <;>
        cases as.any (['*', ' '].isPrefixOf) <;>
        cases as.any (['•', ' '].isPrefixOf) <;> rfl
  unfold bulletDetect
  rw [h1, h2, h3, h4]

/-- Claim C7, amended: a paragraph chunk is rendered through the
bulleted-list branch exactly when some line other than the first starts
with `-`, `*` or `•` followed by a space (the source tests
`includes('\n- ')` and friends, which a bullet on the first and only
line cannot satisfy); the rendering is at most one leading paragraph —
the non-matching non-blank trimmed lines joined with spaces — followed
by the bulleted list of the trimmed matching lines with the marker
stripped, each of the two parts omitted when empty; and
`format("- a\n- b")` yields a single bulleted list with items
`["a", "b"]` and no leading paragraph. -/
theorem bullet_chunk_rendering :
    (∀ p : List Char, (linesOf p).tail.any isBulletStart = true →
      renderChunk p =
        (if (linesOf p).filterMap (nonItemLine? bulletItem?) = [] then []
         else [Rendered.paragraph
           (joinSep ' ' ((linesOf p).filterMap (nonItemLine? bulletItem?)))]) ++
        (if (linesOf p).filterMap bulletItem? = [] then []
         else [Rendered.bullets ((linesOf p).filterMap bulletItem?)]))
    ∧ formatMessageContent "- a\n- b" = [Rendered.bullets [['a'], ['b']]] := by
  constructor
  · intro p h
    have hbd : bulletDetect p = true := by rw [bulletDetect_eq_any, h]
    unfold renderChunk
    rw [if_pos hbd]
    rfl
  · rfl

/-- Witness for `bullet_chunk_rendering`: the bullet branch at the
chunk `"- a\n- b"`. -/
theorem bullet_chunk_rendering_witness :
    renderChunk ("- a\n- b".toList) = [Rendered.bullets [['a'], ['b']]] := by
  have h := bullet_chunk_rendering.1 ("- a\n- b".toList) (by decide)
  rw [h]
  decide

/-- Claim C7 counterexample: the chunk `"- a"` contains a line starting
with `-` and a space, yet the formatter renders a plain paragraph and no
bulleted list, because the detection requires the marker to follow a
newline. -/
theorem bullet_chunk_counterexample :
    formatMessageContent "- a" = [Rendered.paragraph ['-', ' ', 'a']]
    ∧ formatMessageContent "- a" ≠ [Rendered.bullets [['a']]] :=
  ⟨rfl, by decide⟩

/-- Claim C8, amended: a paragraph chunk not caught by the (earlier)
bullet detection is rendered through the numbered-list branch exactly
when some line other than the first starts with digits followed by a dot
(the source searches for `/\n\d+\./`, which the first and only line
cannot satisfy); the rendering follows the same leading-paragraph and
item-extraction rule with the pattern `^\d+\.\s`, the rendered labels
being `1, 2, …` in item order regardless of the source digits; and
`format("1. first\n2. second")` yields the numbered items 1 and 2, as
does a source with duplicate numbers such as `"3. x\n3. y"`. -/
theorem numbered_chunk_rendering :
    (∀ p : List Char, (linesOf p).tail.any numPrefix = true →
      (linesOf p).tail.any isBulletStart = false →
      renderChunk p =
        (if (linesOf p).filterMap (nonItemLine? numItem?) = [] then []
         else [Rendered.paragraph
           (joinSep ' ' ((linesOf p).filterMap (nonItemLine? numItem?)))]) ++
        (if (linesOf p).filterMap numItem? = [] then []
         else [Rendered.numbered
           (((linesOf p).filterMap numItem?).enum.map
             (fun q => (q.1 + 1, q.2)))]))
    ∧ formatMessageContent "1. first\n2. second" =
        [Rendered.numbered [(1, "first".toList), (2, "second".toList)]]
    ∧ formatMessageContent "3. x\n3. y" =
        [Rendered.numbered [(1, ['x']), (2, ['y'])]] := by
  refine ⟨?_, rfl, rfl⟩
  intro p h1 h2
  have hbd : bulletDetect p = false := by rw [bulletDetect_eq_any, h2]
  have hnn : hasNlNum p = true := by rw [hasNlNum_eq_any, h1]
  unfold renderChunk
  rw [if_neg (by simp [hbd]), if_pos hnn]
  rfl

/-- Witness for `numbered_chunk_rendering`: the chunk
`"1. first\n2. second"`. -/
theorem numbered_chunk_rendering_witness :
    renderChunk ("1. first\n2. second".toList) =
      [Rendered.numbered [(1, "first".toList), (2, "second".toList)]] := by
  have h := numbered_chunk_rendering.1 ("1. first\n2. second".toList)
    (by decide) (by decide)
  rw [h]
  decide

/-- Claim C8 counterexample: the chunk `"1. only"` contains a line
matching the digits-then-dot prefix, yet the formatter renders a plain
paragraph and no numbered list, because the search pattern `/\n\d+\./`
requires a preceding newline. -/
theorem numbered_chunk_counterexample :
    formatMessageContent "1. only" = [Rendered.paragraph "1. only".toList]
    ∧ formatMessageContent "1. only" ≠
      [Rendered.numbered [(1, "only".toList)]] :=
  ⟨rfl, by decide⟩

/-- Claim C9, amended: in a code segment whose first line is a non-blank
language tag, the tag is the trimmed first line and the body is the
verbatim remainder after that line's newline — nothing is trimmed from
it, so the newline preceding the closing fence stays in the body; a
chunk containing a triple backtick (and triggering neither list
detection) goes through the code branch; and
`format("text\n```js\nconsole.log(1)\n```")` yields the paragraph
`"text"` followed by a code block tagged `"js"` whose body is
`"console.log(1)\n"` — with a trailing newline. -/
theorem code_chunk_rendering :
    (∀ hd rest : List Char, '\n' ∉ hd → trimL hd ≠ [] →
      codeLang (hd ++ '\n' :: rest) = trimL hd ∧
      codeBody (hd ++ '\n' :: rest) = rest)
    ∧ (∀ p : List Char, containsSub tickSep p = true → bulletDetect p = false →
      hasNlNum p = false → renderChunk p = codeRender p)
    ∧ formatMessageContent "text\n```js\nconsole.log(1)\n```" =
        [Rendered.paragraph "text".toList,
         Rendered.code "js".toList "console.log(1)\n".toList] := by
  refine ⟨?_, ?_, rfl⟩
  · intro hd rest hnl htrim
    have hl : linesOf (hd ++ '\n' :: rest) = hd :: linesOf rest :=
      linesOf_append_nl hd hnl rest
    have hcl : codeLang (hd ++ '\n' :: rest) = trimL hd := by
      unfold codeLang
      rw [hl]
      rfl
    refine ⟨hcl, ?_⟩
    unfold codeBody
    rw [hcl, if_neg htrim, hl, List.tail_cons]
    exact joinSep_linesOf rest
  · intro p ht hbd hnn
    unfold renderChunk
    rw [if_neg (by simp [hbd]), if_neg (by simp [hnn]), if_pos ht]

/-- Witness for `code_chunk_rendering`: the segment `"js\nconsole.log(1)"`
and the chunk of the spec example. -/
theorem code_chunk_rendering_witness :
    (codeLang ("js".toList ++ '\n' :: "console.log(1)".toList) =
      trimL "js".toList ∧
     codeBody ("js".toList ++ '\n' :: "console.log(1)".toList) =
      "console.log(1)".toList)
    ∧ renderChunk ("text\n```js\nconsole.log(1)\n```".toList) =
        codeRender ("text\n```js\nconsole.log(1)\n```".toList) :=
  ⟨code_chunk_rendering.1 "js".toList "console.log(1)".toList (by decide)
      (by decide),
   code_chunk_rendering.2.1 ("text\n```js\nconsole.log(1)\n```".toList)
      (by decide) (by decide) (by decide)⟩

/-- Claim C9 counterexample: in the example
`format("text\n```js\nconsole.log(1)\n```")` the code-block body is
`"console.log(1)\n"`, not `"console.log(1)"` as the claim states — the
verbatim remainder keeps the newline before the closing fence. -/
theorem code_chunk_counterexample :
    formatMessageContent "text\n```js\nconsole.log(1)\n```" =
      [Rendered.paragraph "text".toList,
       Rendered.code "js".toList "console.log(1)\n".toList]
    ∧ formatMessageContent "text\n```js\nconsole.log(1)\n```" ≠
      [Rendered.paragraph "text".toList,
       Rendered.code "js".toList "console.log(1)".toList] :=
  ⟨rfl, by decide⟩
